import Mathlib

/-!
Verification development for a phone-retailer invoicing tool
(`main.py` and `database/database.py`).

Modelling conventions:
* Python exceptions are modelled by the `PyErr` type; fallible operations
  return `Except PyErr`.  A value `.error e` that no caller handles models an
  exception that propagates and terminates the process.
* Python `float` values are modelled as exact rationals (`ℚ`); the source only
  ever produces values with at most two decimal digits, where binary floating
  point and exact arithmetic agree.  `round(x, 2)` is modelled by `pyRound2`
  (round half to even, the rounding used by the `round` builtin of Python).
* The sqlite3 connection is modelled by an explicit state machine `DBState`:
  `disk` is the committed contents of the database file, `connection` is the
  staged (possibly uncommitted) view held by an open connection, `cursor`
  mirrors the `self.cursor` handle, and `log` collects the messages printed by
  the data-access layer.
* SQL statements are modelled as their text (built exactly as the source
  builds it) paired with a parsed form `StmtKind` that the engine executes;
  positional `?` placeholders are bound by zipping the condition columns with
  the parameter list, exactly as sqlite binds them.
* Interactive prompting, screen clearing and table printing (CLI glue that the
  spec puts out of scope) are not modelled.
-/

deriving instance DecidableEq for Except

/-- Python exception values relevant to this program. -/
inductive PyErr where
  | valueError (msg : String)
  | keyError (msg : String)
  | integrityError (msg : String)
  | operationalError (msg : String)
  | attributeError (msg : String)
deriving DecidableEq, Repr

/-- Is the exception a `ValueError`?  `except ValueError` catches exactly these. -/
def PyErr.isValueError : PyErr → Bool
  | .valueError _ => true
  | _ => false

/-- A value stored in a table cell (sqlite storage classes used here). -/
inductive Value where
  | null
  | str (s : String)
  | int (i : Int)
  | real (q : ℚ)
deriving DecidableEq, Repr

/-- A row is an association list of column name to value. -/
def Row : Type := List (String × Value)

instance : DecidableEq Row := by unfold Row; infer_instance

/-- Look a column up in a row (first binding wins). -/
def getCol : Row → String → Option Value
  | [], _ => none
  | p :: r, c => if p.1 = c then some p.2 else getCol r c

/-- The value of a column, with missing columns reading as SQL NULL. -/
def colValue (r : Row) (c : String) : Value :=
  (getCol r c).getD Value.null

/-- Column constraints declared by the `CREATE TABLE` statement. -/
structure ColumnSpec where
  name : String
  notNull : Bool
  unique : Bool
deriving DecidableEq, Repr

/-- The columns of the `invoices` table exactly as declared in
`init_database` in `main.py`.  `id` is `INTEGER PRIMARY KEY AUTOINCREMENT`
(auto-assigned, so it is not checked here); the statement declares no CHECK
constraints. -/
def invoicesColumns : List ColumnSpec := [
  ⟨"id", false, false⟩,
  ⟨"company_name", true, true⟩,
  ⟨"company_num", true, true⟩,
  ⟨"phone_type", true, false⟩,
  ⟨"phone_opt", true, false⟩,
  ⟨"quantity", true, false⟩,
  ⟨"vat", true, false⟩,
  ⟨"total_cost", true, false⟩,
  ⟨"total_cost_vat", true, false⟩]

/-- The text of the `CREATE TABLE` statement issued by `init_database`. -/
def createTableSQL : String :=
  "CREATE TABLE IF NOT EXISTS invoices (" ++
  "id INTEGER PRIMARY KEY AUTOINCREMENT, " ++
  "company_name TEXT NOT NULL UNIQUE, " ++
  "company_num TEXT NOT NULL UNIQUE, " ++
  "phone_type TEXT NOT NULL, " ++
  "phone_opt INTEGER NOT NULL, " ++
  "quantity INTEGER NOT NULL, " ++
  "vat FLOAT NOT NULL, " ++
  "total_cost FLOAT NOT NULL, " ++
  "total_cost_vat FLOAT NOT NULL)"

/-- First constraint of the schema violated by inserting `row` into a table
holding `tbl`, scanning the columns in declaration order; `none` means the
insert is accepted. -/
def firstViolation (tbl : List Row) (row : Row) : List ColumnSpec → Option PyErr
  | [] => none
  | c :: rest =>
      if c.notNull = true ∧ colValue row c.name = Value.null then
        some (.integrityError ("NOT NULL constraint failed: invoices." ++ c.name))
      else if c.unique = true ∧ ∃ r ∈ tbl, colValue r c.name = colValue row c.name then
        some (.integrityError ("UNIQUE constraint failed: invoices." ++ c.name))
      else firstViolation tbl row rest

/-- Constraint check of the `invoices` schema for one insert. -/
def checkConstraints (tbl : List Row) (row : Row) : Option PyErr :=
  firstViolation tbl row invoicesColumns

/-- Largest id currently in the table (AUTOINCREMENT state; the invoice flow
never deletes rows, so the maximum of the current ids is the sequence value). -/
def maxId (rows : List Row) : Int :=
  rows.foldl (fun m r => max m (match getCol r "id" with
    | some (Value.int i) => i
    | _ => 0)) 0

/-- The single database file of this program: whether the `invoices` table
exists, and its rows in rowid order. -/
structure DBFile where
  tableExists : Bool
  rows : List Row
deriving DecidableEq

/-- Parsed form of the statements this layer builds. -/
inductive StmtKind where
  | createTable
  | selectWhere (cols : List String)
  | insertInto (cols : List String)
  | deleteWhere (cols : List String)
  | updateSet (setCols : List String) (whereCols : List String)
deriving DecidableEq, Repr

/-- A SQL statement: its text exactly as the source builds it, paired with the
parsed form the engine executes (we do not embed a SQL parser). -/
structure Stmt where
  text : String
  kind : StmtKind
deriving DecidableEq, Repr

/-- Does a row satisfy every `col = value` condition? -/
def rowMatches (r : Row) (conds : List (String × Value)) : Bool :=
  conds.all (fun p => decide (getCol r p.1 = some p.2))

/-- Overwrite the columns of `r` named in `upd` with the new values. -/
def applySet (r : Row) (upd : List (String × Value)) : Row :=
  r.map (fun p => match getCol upd p.1 with
    | some v => (p.1, v)
    | none => p)

/-- Execution of one statement against the staged database, as sqlite performs
it: `?` placeholders are bound positionally by zipping the condition columns
with the parameter list. -/
def DBFile.exec (f : DBFile) (st : Stmt) (params : List Value) :
    Except PyErr (DBFile × List Row) :=
  match st.kind with
  | .createTable =>
      .ok (if f.tableExists then f else { tableExists := true, rows := [] }, [])
  | .selectWhere cols =>
      if f.tableExists then
        .ok (f, f.rows.filter (fun r => rowMatches r (cols.zip params)))
      else .error (.operationalError "no such table: invoices")
  | .insertInto cols =>
      if f.tableExists then
        let row : Row := ("id", Value.int (maxId f.rows + 1)) :: cols.zip params
        match checkConstraints f.rows row with
        | some e => .error e
        | none => .ok ({ f with rows := f.rows ++ [row] }, [])
      else .error (.operationalError "no such table: invoices")
  | .deleteWhere cols =>
      if f.tableExists then
        .ok ({ f with rows := f.rows.filter (fun r => !rowMatches r (cols.zip params)) }, [])
      else .error (.operationalError "no such table: invoices")
  | .updateSet setCols whereCols =>
      if f.tableExists then
        let setVals := params.take setCols.length
        let whereVals := params.drop setCols.length
        .ok ({ f with rows := f.rows.map (fun r =>
          if rowMatches r (whereCols.zip whereVals) then
            applySet r (setCols.zip setVals)
          else r) }, [])
      else .error (.operationalError "no such table: invoices")

/-- State of the `Database` wrapper object plus the world it acts on:
committed file contents, the staged view of an open connection, the cursor
handle, and the printed messages. -/
structure DBState where
  disk : DBFile
  connection : Option DBFile
  cursor : Bool
  log : List String
deriving DecidableEq

/-- `Database.open`: acquire a connection if none is open, else report. -/
def Database.openConn (s : DBState) : DBState :=
  match s.connection with
  | none => { s with connection := some s.disk, cursor := true }
  | some _ => { s with log := s.log ++ ["database connection is already open"] }

/-- `Database.commit`: flush the staged state to disk if a connection is open,
else report. -/
def Database.commit (s : DBState) : DBState :=
  match s.connection with
  | some t => { s with disk := t }
  | none => { s with log := s.log ++ ["No active connection to commit"] }

/-- `Database.close`: if open, commit pending work then release the connection
and cursor; if already closed, report and do nothing. -/
def Database.close (s : DBState) : DBState :=
  match s.connection with
  | some _ =>
      let s1 := Database.commit s
      { s1 with connection := none, cursor := false }
  | none => { s with log := s.log ++ ["database connection is null"] }

/-- Text of the statement `Database.insert` builds. -/
def insertStatementText (table : String) (keys : List String) : String :=
  "INSERT INTO " ++ table ++ " (" ++ ", ".intercalate keys ++ ") VALUES (" ++
    ", ".intercalate (keys.map (fun _ => "?")) ++ ")"

/-- `Database.insert`: build the INSERT statement from the keys of `data`,
bind the values, execute, commit immediately, and on failure log and re-raise. -/
def Database.insert (s : DBState) (table : String) (data : List (String × Value)) :
    DBState × Except PyErr Unit :=
  let st : Stmt := { text := insertStatementText table (data.map (fun p => p.1)),
                     kind := .insertInto (data.map (fun p => p.1)) }
  match s.connection with
  | none => (s, .error (.attributeError "NoneType has no attribute execute"))
  | some f =>
      match f.exec st (data.map (fun p => p.2)) with
      | .error e =>
          ({ s with log := s.log ++ ["Error Failed to insert into " ++ table] }, .error e)
      | .ok (f1, _) =>
          let s1 := Database.commit { s with connection := some f1 }
          ({ s1 with log := s1.log ++ ["Inserted into " ++ table] }, .ok ())

/-- `Database.query`: execute an arbitrary prepared statement and return the
full result set. -/
def Database.query (s : DBState) (st : Stmt) (params : List Value) :
    DBState × Except PyErr (List Row) :=
  match s.connection with
  | none => (s, .error (.attributeError "NoneType has no attribute execute"))
  | some f =>
      match f.exec st params with
      | .error e => (s, .error e)
      | .ok (f1, rows) =>
          ({ s with connection := some f1, log := s.log ++ ["query: " ++ st.text] },
           .ok rows)

/-- Text of the statement `Database.search` builds: `SELECT * FROM` the table,
with a WHERE clause only when the mapping is non-empty. -/
def searchStatementText (table : String) (q : List (String × Value)) : String :=
  let sql := "SELECT * FROM " ++ table
  let conditions : List String :=
    if q.isEmpty then []
    else [" AND ".intercalate (q.map (fun p => p.1 ++ " = ?"))]
  if conditions.isEmpty then sql
  else sql ++ " WHERE " ++ " AND ".intercalate conditions

/-- `Database.search`: build the SELECT from the optional column-value
mapping (an empty mapping is falsy in the source, so it adds no WHERE clause),
bind the values, and delegate to `Database.query`. -/
def Database.search (s : DBState) (table : String) (q : List (String × Value)) :
    DBState × Except PyErr (List Row) :=
  Database.query s
    { text := searchStatementText table q, kind := .selectWhere (q.map (fun p => p.1)) }
    (if q.isEmpty then [] else q.map (fun p => p.2))

/-- Text of the statement `Database.delete` builds. -/
def deleteStatementText (table : String) (keys : List String) : String :=
  "DELETE FROM " ++ table ++ " WHERE " ++
    " AND ".intercalate (keys.map (fun k => k ++ " = ?"))

/-- The parameters `Database.delete` actually binds: the source executes with
`tuple(search_query.keys())`, i.e. the KEYS of the mapping, not its values. -/
def deleteBoundParams (q : List (String × Value)) : List Value :=
  q.map (fun p => Value.str p.1)

/-- `Database.delete`: build the DELETE statement from the keys and execute it
with the keys bound as the parameters (as the source does); no commit. -/
def Database.delete (s : DBState) (table : String) (q : List (String × Value)) :
    DBState × Except PyErr Unit :=
  let keys := q.map (fun p => p.1)
  let st : Stmt := { text := deleteStatementText table keys, kind := .deleteWhere keys }
  match s.connection with
  | none => (s, .error (.attributeError "NoneType has no attribute execute"))
  | some f =>
      match f.exec st (deleteBoundParams q) with
      | .error e => (s, .error e)
      | .ok (f1, _) =>
          ({ s with connection := some f1, log := s.log ++ ["Deleted rows"] }, .ok ())

/-- Text of the statement `Database.update` builds. -/
def updateStatementText (table : String) (setKeys whereKeys : List String) : String :=
  "UPDATE " ++ table ++ " SET " ++ ", ".intercalate (setKeys.map (fun k => k ++ " = ?")) ++
    " WHERE " ++ " AND ".intercalate (whereKeys.map (fun k => k ++ " = ?"))

/-- `Database.update`: build the UPDATE statement; bind the set values then
the where values; no commit. -/
def Database.update (s : DBState) (table : String) (upd q : List (String × Value)) :
    DBState × Except PyErr Unit :=
  let st : Stmt := { text := updateStatementText table (upd.map (fun p => p.1)) (q.map (fun p => p.1)),
                     kind := .updateSet (upd.map (fun p => p.1)) (q.map (fun p => p.1)) }
  match s.connection with
  | none => (s, .error (.attributeError "NoneType has no attribute execute"))
  | some f =>
      match f.exec st (upd.map (fun p => p.2) ++ q.map (fun p => p.2)) with
      | .error e => (s, .error e)
      | .ok (f1, _) =>
          ({ s with connection := some f1, log := s.log ++ ["Updated rows"] }, .ok ())

/-- The `with Database(...) as db:` scope: `__enter__` calls `open`, the body
runs, and `__exit__` calls `close` unconditionally; an exception raised by the
body (an `.error` result) propagates after `close` has run. -/
def withDatabase {A : Type} (s : DBState) (body : DBState → DBState × Except PyErr A) :
    DBState × Except PyErr A :=
  let s1 := Database.openConn s
  let p := body s1
  (Database.close p.1, p.2)

/-- The `PHONE_TYPES` constant of `main.py`: product type name and base unit
price. -/
def PHONE_TYPES : List (String × Int) := [
  ("Basic", 250),
  ("Standard", 450),
  ("Superior", 950)]

/-- The `VAT_RATE` constant of `main.py` (the float literal `0.2`, exact in
our rational model). -/
def VAT_RATE : ℚ := 0.2

/-- The option-surcharge dictionary built inside `calculate_cost`
(`PhoneOptions.OPTION_A.value = 1`, `OPTION_B = 2`, `OPTION_NULL = 3`). -/
def SETUP_COSTS : List (Int × Int) := [(1, 30), (2, 50), (3, 0)]

/-- The `next(... for name, cost in PHONE_TYPES if name == phone_type)` lookup. -/
def lookupBaseCost (phone_type : String) : Option Int :=
  (PHONE_TYPES.find? (fun p => decide (p.1 = phone_type))).map (fun p => p.2)

/-- The dictionary lookup for the option surcharge; `none` models the
`KeyError` a missing key raises. -/
def lookupSetupCost (options : Int) : Option Int :=
  (SETUP_COSTS.find? (fun p => decide (p.1 = options))).map (fun p => p.2)

/-- Floor of a rational, computed directly on numerator and denominator so
that kernel reduction works. -/
def ratFloor (x : ℚ) : ℤ := x.num.fdiv x.den

/-- Round half to even to the nearest integer (the rounding of the `round`
builtin of Python).  The fractional part `r` satisfies `0 ≤ r < 1`; the
comparisons `r < 1/2` and `1/2 < r` are phrased on the numerator and
denominator of `r` so that kernel reduction works. -/
def roundHalfEven (x : ℚ) : ℤ :=
  let n := ratFloor x
  let r := x - (n : ℚ)
  if 2 * r.num < (r.den : ℤ) then n
  else if (r.den : ℤ) < 2 * r.num then n + 1
  else if n % 2 = 0 then n else n + 1

/-- `round(x, 2)` of Python, in the exact rational model. -/
def pyRound2 (x : ℚ) : ℚ := (roundHalfEven (x * 100) : ℚ) / 100

/-- `calculate_cost` of `main.py`: look up the base price (raising
`ValueError` for an unknown type), look up the surcharge (a missing key
raises `KeyError`), then return the rounded subtotal, VAT and total. -/
def calculate_cost (phone_type : String) (quantity : Int) (options : Int) :
    Except PyErr (ℚ × ℚ × ℚ) :=
  match lookupBaseCost phone_type with
  | none => .error (.valueError ("Invalid phone type selected: " ++ phone_type))
  | some base_cost =>
      match lookupSetupCost options with
      | none => .error (.keyError (toString options))
      | some setup_cost =>
          let total_cost_before_vat : Int := (base_cost + setup_cost) * quantity
          let vat : ℚ := (total_cost_before_vat : ℚ) * VAT_RATE
          let total_cost_with_vat : ℚ := (total_cost_before_vat : ℚ) + vat
          .ok (pyRound2 (total_cost_before_vat : ℚ), pyRound2 vat,
               pyRound2 total_cost_with_vat)

/-- The column-value mapping `insert_invoice` builds, in its dict order. -/
def invoiceData (company_name company_num smart_phone_type : String)
    (selected_option quantity_num : Int) (vat total_cost total_with_vat : ℚ) :
    List (String × Value) := [
  ("company_name", Value.str company_name),
  ("company_num", Value.str company_num),
  ("phone_type", Value.str smart_phone_type),
  ("phone_opt", Value.int selected_option),
  ("quantity", Value.int quantity_num),
  ("vat", Value.real vat),
  ("total_cost", Value.real total_cost),
  ("total_cost_vat", Value.real total_with_vat)]

/-- `insert_invoice` of `main.py` (the saveInvoice adapter): inside a scoped
connection, insert the record; it installs no exception handler, so any
error from `Database.insert` propagates to the caller. -/
def insert_invoice (s : DBState) (company_name company_num smart_phone_type : String)
    (selected_option quantity_num : Int) (vat total_cost total_with_vat : ℚ) :
    DBState × Except PyErr Unit :=
  withDatabase s (fun db =>
    Database.insert db "invoices"
      (invoiceData company_name company_num smart_phone_type selected_option
        quantity_num vat total_cost total_with_vat))

/-- `read_all_invoices` of `main.py` (the listInvoices adapter): inside a
scoped connection, search with no filter. -/
def read_all_invoices (s : DBState) : DBState × Except PyErr (List Row) :=
  withDatabase s (fun db => Database.search db "invoices" [])

/-- `init_database` of `main.py` (schema bootstrap): inside a scoped
connection, execute the create-table-if-absent statement. -/
def init_database (s : DBState) : DBState × Except PyErr Unit :=
  withDatabase s (fun db =>
    match db.connection with
    | none => (db, .error (.attributeError "NoneType has no attribute execute"))
    | some f =>
        match f.exec { text := createTableSQL, kind := .createTable } [] with
        | .error e => (db, .error e)
        | .ok (f1, _) => ({ db with connection := some f1 }, .ok ()))

/-- Outcome of one pass of `handle_customer`: invoice stored, error caught by
the `except ValueError` handler, or an exception that escapes the handler and
crashes the process. -/
inductive FlowResult where
  | ok
  | handledError (e : PyErr)
  | uncaught (e : PyErr)
deriving DecidableEq, Repr

/-- The persistence-relevant core of `handle_customer` in `main.py`: call
`calculate_cost`, and on success insert the invoice; the surrounding
`try` catches only `ValueError`, so every other exception propagates.
(The caller destructures the result as `total_cost, vat, total_with_vat`.) -/
def handle_customer_core (s : DBState) (company_name company_num : String)
    (smart_phone_type : String) (selected_option quantity_num : Int) :
    DBState × FlowResult :=
  match calculate_cost smart_phone_type quantity_num selected_option with
  | .error e => (s, if e.isValueError then .handledError e else .uncaught e)
  | .ok (total_cost, vat, total_with_vat) =>
      let p := insert_invoice s company_name company_num smart_phone_type
        selected_option quantity_num vat total_cost total_with_vat
      match p.2 with
      | .ok _ => (p.1, .ok)
      | .error e => (p.1, if e.isValueError then .handledError e else .uncaught e)

/-- A fresh process state: no database file contents yet, connection closed. -/
def initialState : DBState :=
  { disk := { tableExists := false, rows := [] },
    connection := none, cursor := false, log := [] }

/-- A closed-connection state whose `invoices` table exists and holds `rows`. -/
def diskState (rows : List Row) : DBState :=
  { disk := { tableExists := true, rows := rows },
    connection := none, cursor := false, log := [] }

/-- A sample persisted invoice row used by concrete test theorems
(integer-valued money amounts; sqlite stores whatever value is bound). -/
def acmeRow : Row := [("id", Value.int 1), ("company_name", Value.str "Acme"),
  ("company_num", Value.str "07111111111"), ("phone_type", Value.str "Basic"),
  ("phone_opt", Value.int 3), ("quantity", Value.int 10), ("vat", Value.int 500),
  ("total_cost", Value.int 2500), ("total_cost_vat", Value.int 3000)]

/-- A row whose company name is the literal string used as a column name,
isolating the key-vs-value parameter-binding behaviour of `Database.delete`. -/
def oddNameRow : Row := [("id", Value.int 2), ("company_name", Value.str "company_name"),
  ("company_num", Value.str "07999999999"), ("phone_type", Value.str "Basic"),
  ("phone_opt", Value.int 3), ("quantity", Value.int 5), ("vat", Value.int 56),
  ("total_cost", Value.int 280), ("total_cost_vat", Value.int 336)]

/-- `acmeRow` after an update setting its phone type to Standard. -/
def acmeStandardRow : Row := [("id", Value.int 1), ("company_name", Value.str "Acme"),
  ("company_num", Value.str "07111111111"), ("phone_type", Value.str "Standard"),
  ("phone_opt", Value.int 3), ("quantity", Value.int 10), ("vat", Value.int 500),
  ("total_cost", Value.int 2500), ("total_cost_vat", Value.int 3000)]

/-- A scope body that performs one insert. -/
def sampleInsertBody : DBState → DBState × Except PyErr Unit :=
  fun db => Database.insert db "invoices"
    (invoiceData "Acme" "07111111111" "Basic" 3 10 500 2500 3000)

/-- A scope body that stages a non-committing write (an update) and then
raises. -/
def sampleFailingBody : DBState → DBState × Except PyErr Unit :=
  fun db =>
    let p := Database.update db "invoices" [("phone_type", Value.str "Standard")]
      [("company_name", Value.str "Acme")]
    (p.1, Except.error (.valueError "mid-scope failure"))

/-! ### Helper lemmas -/

theorem zip_map_fst_snd_eq {α β : Type} (l : List (α × β)) :
    (l.map Prod.fst).zip (l.map Prod.snd) = l := by
  induction l with
  | nil => rfl
  | cons a t ih => simp [List.zip, ih]

theorem intercalate_single (s x : String) : s.intercalate [x] = x := by
  simp [String.intercalate, String.intercalate.go]

theorem ratFloor_intCast (k : ℤ) : ratFloor (k : ℚ) = k := by
  unfold ratFloor
  rw [Rat.num_intCast, Rat.den_intCast]
  simp [Int.fdiv_one]

theorem roundHalfEven_intCast (k : ℤ) : roundHalfEven (k : ℚ) = k := by
  unfold roundHalfEven
  simp only [ratFloor_intCast, sub_self]
  norm_num

/-- If `x` has at most two decimal digits then rounding to two decimal places
leaves it unchanged. -/
theorem pyRound2_eq_self (x : ℚ) (k : ℤ) (h : x * 100 = (k : ℚ)) :
    pyRound2 x = x := by
  unfold pyRound2
  rw [h, roundHalfEven_intCast, ← h]
  ring

theorem vat_rate_eq : VAT_RATE = 1 / 5 := by norm_num [VAT_RATE]

/-! ### Claims about the cost calculator -/

/-- C3: for every phoneType in the price table (Basic=250, Standard=450,
Superior=950), every option code in the surcharge table (1=30, 2=50, 3=0) and
every quantity, `calculate_cost` returns `(subtotal, vat, total)` in that
order, where `subtotal = (basePrice + surcharge) * quantity`,
`vat = subtotal * 0.20` and `total = subtotal + vat`, each computed at full
precision and rounded independently to two decimal places. -/
theorem claim_C3_calculate_cost (name : String) (base : ℤ)
    (hb : (name, base) ∈
      ([("Basic", 250), ("Standard", 450), ("Superior", 950)] : List (String × ℤ)))
    (opt sur : ℤ)
    (ho : (opt, sur) ∈ ([(1, 30), (2, 50), (3, 0)] : List (ℤ × ℤ)))
    (qty : ℤ) :
    calculate_cost name qty opt =
      Except.ok (pyRound2 (((base + sur) * qty : ℤ) : ℚ),
                 pyRound2 ((((base + sur) * qty : ℤ) : ℚ) * (20 / 100)),
                 pyRound2 ((((base + sur) * qty : ℤ) : ℚ) +
                   (((base + sur) * qty : ℤ) : ℚ) * (20 / 100))) := by
  simp only [List.mem_cons, List.not_mem_nil, or_false, Prod.mk.injEq] at hb ho
  rcases hb with ⟨rfl, rfl⟩ | ⟨rfl, rfl⟩ | ⟨rfl, rfl⟩ <;>
    rcases ho with ⟨rfl, rfl⟩ | ⟨rfl, rfl⟩ | ⟨rfl, rfl⟩ <;>
      simp [calculate_cost, lookupBaseCost, lookupSetupCost, PHONE_TYPES, SETUP_COSTS,
        VAT_RATE] <;> norm_num

theorem claim_C3_witness :
    calculate_cost "Basic" 10 3 =
      Except.ok (pyRound2 ((((250 : ℤ) + 0) * 10 : ℤ) : ℚ),
                 pyRound2 (((((250 : ℤ) + 0) * 10 : ℤ) : ℚ) * (20 / 100)),
                 pyRound2 (((((250 : ℤ) + 0) * 10 : ℤ) : ℚ) +
                   ((((250 : ℤ) + 0) * 10 : ℤ) : ℚ) * (20 / 100))) :=
  claim_C3_calculate_cost "Basic" 250 (by simp) 3 0 (by simp) 10

/-- C4: for all valid inputs, the three returned values satisfy
`total = round(subtotal + vat, 2)` and `vat = round(subtotal * 0.20, 2)`;
in particular `calculate_cost "Basic" 10 3 = (2500, 500, 3000)` and
`calculate_cost "Superior" 5 1 = (4900, 980, 5880)`. -/
theorem claim_C4_rounding_invariants :
    (∀ (pt : String) (qty opt : ℤ) (sub vat tot : ℚ),
        calculate_cost pt qty opt = Except.ok (sub, vat, tot) →
        tot = pyRound2 (sub + vat) ∧ vat = pyRound2 (sub * (20 / 100)))
    ∧ calculate_cost "Basic" 10 3 = Except.ok (2500, 500, 3000)
    ∧ calculate_cost "Superior" 5 1 = Except.ok (4900, 980, 5880) := by
  refine ⟨?_, ?_, ?_⟩
  · intro pt qty opt sub vat tot h
    unfold calculate_cost at h
    cases hb : lookupBaseCost pt with
    | none => rw [hb] at h; simp at h
    | some base =>
      rw [hb] at h
      cases ho : lookupSetupCost opt with
      | none => rw [ho] at h; simp at h
      | some sur =>
        rw [ho] at h
        simp only [Except.ok.injEq, Prod.mk.injEq] at h
        obtain ⟨hsub, hvat, htot⟩ := h
        set S : ℤ := (base + sur) * qty with hS
        have h1 : pyRound2 ((S : ℚ)) = (S : ℚ) :=
          pyRound2_eq_self _ (100 * S) (by push_cast; ring)
        have h2 : pyRound2 ((S : ℚ) * VAT_RATE) = (S : ℚ) * VAT_RATE :=
          pyRound2_eq_self _ (20 * S) (by rw [vat_rate_eq]; push_cast; ring)
        have h3 : pyRound2 ((S : ℚ) + (S : ℚ) * VAT_RATE) = (S : ℚ) + (S : ℚ) * VAT_RATE :=
          pyRound2_eq_self _ (120 * S) (by rw [vat_rate_eq]; push_cast; ring)
        have hv : ((20 : ℚ) / 100) = VAT_RATE := by rw [vat_rate_eq]; norm_num
        subst hsub hvat htot
        refine ⟨?_, ?_⟩
        · rw [h1, h2, h3]
        · rw [hv, h1]
  · have e1 : pyRound2 ((2500 : ℚ)) = 2500 := pyRound2_eq_self _ 250000 (by norm_num)
    have e2 : pyRound2 ((500 : ℚ)) = 500 := pyRound2_eq_self _ 50000 (by norm_num)
    have e3 : pyRound2 ((3000 : ℚ)) = 3000 := pyRound2_eq_self _ 300000 (by norm_num)
    simp [calculate_cost, lookupBaseCost, lookupSetupCost, PHONE_TYPES, SETUP_COSTS, VAT_RATE]
    norm_num [e1, e2, e3]
  · have e1 : pyRound2 ((4900 : ℚ)) = 4900 := pyRound2_eq_self _ 490000 (by norm_num)
    have e2 : pyRound2 ((980 : ℚ)) = 980 := pyRound2_eq_self _ 98000 (by norm_num)
    have e3 : pyRound2 ((5880 : ℚ)) = 5880 := pyRound2_eq_self _ 588000 (by norm_num)
    simp [calculate_cost, lookupBaseCost, lookupSetupCost, PHONE_TYPES, SETUP_COSTS, VAT_RATE]
    norm_num [e1, e2, e3]

theorem claim_C4_witness :
    (3000 : ℚ) = pyRound2 (2500 + 500) ∧ (500 : ℚ) = pyRound2 (2500 * (20 / 100)) :=
  claim_C4_rounding_invariants.1 "Basic" 10 3 2500 500 3000
    claim_C4_rounding_invariants.2.1

/-- C6: an unknown product type makes `calculate_cost` fail with the
invalid-product-type `ValueError`, an unknown option code makes it fail with
an error as well (never a sentinel or partial tuple), and whenever
`calculate_cost` fails the customer flow inserts no row (the database state is
untouched); in particular `calculate_cost "Unknown" 5 3` fails with the
invalid-product-type error and the flow leaves the store unchanged. -/
theorem claim_C6_fail_fast :
    (∀ (pt : String) (qty opt : ℤ), lookupBaseCost pt = none →
        calculate_cost pt qty opt =
          Except.error (.valueError ("Invalid phone type selected: " ++ pt)))
    ∧ (∀ (pt : String) (qty opt : ℤ), lookupSetupCost opt = none →
        ∃ e, calculate_cost pt qty opt = Except.error e)
    ∧ (∀ (s : DBState) (cn cnum pt : String) (opt qty : ℤ) (e : PyErr),
        calculate_cost pt qty opt = Except.error e →
        handle_customer_core s cn cnum pt opt qty =
          (s, if e.isValueError then .handledError e else .uncaught e))
    ∧ (∀ (s : DBState) (cn cnum : String) (qty : ℤ),
        handle_customer_core s cn cnum "Unknown" 3 qty =
          (s, .handledError (.valueError "Invalid phone type selected: Unknown"))) := by
  refine ⟨?_, ?_, ?_, ?_⟩
  · intro pt qty opt h
    simp [calculate_cost, h]
  · intro pt qty opt h
    cases hb : lookupBaseCost pt with
    | none =>
        exact ⟨.valueError ("Invalid phone type selected: " ++ pt),
          by simp [calculate_cost, hb]⟩
    | some base =>
        exact ⟨.keyError (toString opt), by simp [calculate_cost, hb, h]⟩
  · intro s cn cnum pt opt qty e h
    simp [handle_customer_core, h]
  · intro s cn cnum qty
    simp [handle_customer_core, calculate_cost, lookupBaseCost, PHONE_TYPES,
      PyErr.isValueError]

theorem claim_C6_witness :
    calculate_cost "Unknown" 5 3 =
      Except.error (.valueError ("Invalid phone type selected: " ++ "Unknown"))
    ∧ handle_customer_core (diskState []) "Acme" "07111111111" "Unknown" 3 5 =
        (diskState [], .handledError (.valueError "Invalid phone type selected: Unknown")) :=
  ⟨claim_C6_fail_fast.1 "Unknown" 5 3 (by decide),
   claim_C6_fail_fast.2.2.2 (diskState []) "Acme" "07111111111" 5⟩

/-! ### Claims about the data-access layer lifecycle -/

/-- C7: entering a scoped Database acquisition calls open and leaving it
calls close unconditionally, so after every scope exit — whether the body
completed normally or raised — the connection and cursor handles are released
and reset to the closed state.  The hypothesis states the class invariant
(the cursor handle exists exactly when the connection does) for the state the
body ends in; every data-access operation preserves it. -/
theorem claim_C7_scoped_lifecycle {A : Type} (s : DBState)
    (body : DBState → DBState × Except PyErr A)
    (hInv : ((body (Database.openConn s)).1).cursor =
        ((body (Database.openConn s)).1).connection.isSome) :
    withDatabase s body =
      (Database.close (body (Database.openConn s)).1, (body (Database.openConn s)).2)
    ∧ ((withDatabase s body).1).connection = none
    ∧ ((withDatabase s body).1).cursor = false := by
  refine ⟨rfl, ?_, ?_⟩ <;>
  · unfold withDatabase
    cases hc : ((body (Database.openConn s)).1).connection with
    | some t => simp [Database.close, Database.commit, hc]
    | none =>
        rw [hc] at hInv
        simp [Database.close, hc, hInv]

theorem claim_C7_witness :
    (((sampleInsertBody (Database.openConn (diskState []))).1).cursor =
        ((sampleInsertBody (Database.openConn (diskState []))).1).connection.isSome)
    ∧ (((withDatabase (diskState []) sampleInsertBody).1).connection = none
        ∧ ((withDatabase (diskState []) sampleInsertBody).1).cursor = false) :=
  ⟨by decide, (claim_C7_scoped_lifecycle (diskState []) sampleInsertBody (by decide)).2⟩

/-- C8: open on an already-open connection is a reported no-op that leaves
exactly one active connection; close on a closed connection is a reported
no-op (no error, no crash); close on an open connection commits the pending
transaction, releases the connection and cursor, and resets state so a
subsequent open is valid. -/
theorem claim_C8_lifecycle_noops :
    (∀ (s : DBState) (t : DBFile), s.connection = some t →
        (Database.openConn s).connection = some t
        ∧ (Database.openConn s).disk = s.disk
        ∧ (Database.openConn s).cursor = s.cursor
        ∧ (Database.openConn s).log = s.log ++ ["database connection is already open"])
    ∧ (∀ s : DBState, s.connection = none →
        (Database.close s).connection = none
        ∧ (Database.close s).disk = s.disk
        ∧ (Database.close s).cursor = s.cursor
        ∧ (Database.close s).log = s.log ++ ["database connection is null"])
    ∧ (∀ (s : DBState) (t : DBFile), s.connection = some t →
        (Database.close s).disk = t
        ∧ (Database.close s).connection = none
        ∧ (Database.close s).cursor = false
        ∧ (Database.openConn (Database.close s)).connection = some t) := by
  refine ⟨?_, ?_, ?_⟩
  · intro s t h
    simp [Database.openConn, h]
  · intro s h
    simp [Database.close, h]
  · intro s t h
    simp [Database.close, Database.commit, Database.openConn, h]

theorem claim_C8_witness :
    ((Database.openConn (Database.openConn (diskState []))).connection =
        some { tableExists := true, rows := [] }
      ∧ (Database.openConn (Database.openConn (diskState []))).log =
          [] ++ ["database connection is already open"])
    ∧ ((Database.close (diskState [])).connection = none
      ∧ (Database.close (diskState [])).log = [] ++ ["database connection is null"])
    ∧ (Database.close (Database.openConn (diskState []))).disk =
        { tableExists := true, rows := [] } :=
  ⟨⟨(claim_C8_lifecycle_noops.1 (Database.openConn (diskState []))
      { tableExists := true, rows := [] } (by decide)).1,
    (claim_C8_lifecycle_noops.1 (Database.openConn (diskState []))
      { tableExists := true, rows := [] } (by decide)).2.2.2⟩,
   ⟨(claim_C8_lifecycle_noops.2.1 (diskState []) (by decide)).1,
    (claim_C8_lifecycle_noops.2.1 (diskState []) (by decide)).2.2.2⟩,
   (claim_C8_lifecycle_noops.2.2 (Database.openConn (diskState []))
      { tableExists := true, rows := [] } (by decide)).1⟩

/-- C10: whatever staged state a scope body ends in — even when it returns an
error after a non-committing write — the scope exit calls close, which commits
that staged state to disk; there is no rollback path, so writes staged before
the failure are persisted. -/
theorem claim_C10_exit_commits {A : Type} (s : DBState)
    (body : DBState → DBState × Except PyErr A) (f : DBFile)
    (hconn : ((body (Database.openConn s)).1).connection = some f) :
    ((withDatabase s body).1).disk = f := by
  unfold withDatabase
  simp [Database.close, Database.commit, hconn]

theorem claim_C10_witness :
    (((sampleFailingBody (Database.openConn (diskState [acmeRow]))).1).connection =
        some { tableExists := true, rows := [acmeStandardRow] })
    ∧ ((withDatabase (diskState [acmeRow]) sampleFailingBody).1).disk =
        { tableExists := true, rows := [acmeStandardRow] } :=
  ⟨by decide,
   claim_C10_exit_commits (diskState [acmeRow]) sampleFailingBody
     { tableExists := true, rows := [acmeStandardRow] } (by decide)⟩

/-- C2: `Database.delete` builds `DELETE FROM <table> WHERE col = ? AND ...`
from the keys of the where-mapping and does not auto-commit, but it executes
the statement with the mapping KEYS bound as the parameters instead of the
values: at the failing input `delete("invoices", ⟨company_name, Acme⟩)` the
bound parameter tuple is the key string, so the row named Acme survives while
a row whose company name is the literal string used as the column name is
deleted from the staged state (and the deletion is not committed). -/
theorem claim_C2_delete_binds_keys :
    deleteStatementText "invoices" ["company_name"] =
      "DELETE FROM invoices WHERE company_name = ?"
    ∧ deleteBoundParams [("company_name", Value.str "Acme")] = [Value.str "company_name"]
    ∧ (Database.delete (Database.openConn (diskState [acmeRow, oddNameRow]))
        "invoices" [("company_name", Value.str "Acme")]).2 = Except.ok ()
    ∧ ((Database.delete (Database.openConn (diskState [acmeRow, oddNameRow]))
        "invoices" [("company_name", Value.str "Acme")]).1).connection =
        some { tableExists := true, rows := [acmeRow] }
    ∧ ((Database.delete (Database.openConn (diskState [acmeRow, oddNameRow]))
        "invoices" [("company_name", Value.str "Acme")]).1).disk =
        { tableExists := true, rows := [acmeRow, oddNameRow] } := by
  refine ⟨by decide, by decide, by decide, by decide, by decide⟩

/-! ### Claims about search and the schema bootstrap -/

/-- C9: `Database.search` with an empty mapping builds `SELECT * FROM` the
table with no WHERE clause and returns every row; with a non-empty mapping it
appends `WHERE col1 = ? AND ...` over the keys, binds the values as the
parameters, delegates execution to `Database.query`, and returns exactly the
rows satisfying all the equalities. -/
theorem claim_C9_search :
    (∀ t : String, searchStatementText t [] = "SELECT * FROM " ++ t)
    ∧ (∀ (t : String) (q : List (String × Value)), q ≠ [] →
        searchStatementText t q =
          "SELECT * FROM " ++ t ++ " WHERE " ++
            " AND ".intercalate (q.map (fun p => p.1 ++ " = ?")))
    ∧ (∀ (s : DBState) (t : String) (q : List (String × Value)),
        Database.search s t q =
          Database.query s
            { text := searchStatementText t q,
              kind := .selectWhere (q.map (fun p => p.1)) }
            (if q.isEmpty then [] else q.map (fun p => p.2)))
    ∧ (∀ (s : DBState) (f : DBFile), s.connection = some f → f.tableExists = true →
        (Database.search s "invoices" []).2 = Except.ok f.rows)
    ∧ (∀ (s : DBState) (f : DBFile) (q : List (String × Value)),
        s.connection = some f → f.tableExists = true →
        (Database.search s "invoices" q).2 =
          Except.ok (f.rows.filter (fun r => rowMatches r q))) := by
  refine ⟨?_, ?_, ?_, ?_, ?_⟩
  · intro t
    rfl
  · intro t q hq
    cases q with
    | nil => exact absurd rfl hq
    | cons a l => simp [searchStatementText, intercalate_single]
  · intro s t q
    rfl
  · intro s f h hex
    simp [Database.search, Database.query, h, DBFile.exec, hex, rowMatches,
      List.filter_true]
  · intro s f q h hex
    cases q with
    | nil =>
        simp [Database.search, Database.query, h, DBFile.exec, hex, rowMatches,
          List.filter_true]
    | cons a l =>
        simp only [Database.search, Database.query, h, DBFile.exec, hex]
        simp [zip_map_fst_snd_eq]

theorem claim_C9_witness :
    searchStatementText "invoices" [("company_name", Value.str "Acme")] =
      "SELECT * FROM " ++ "invoices" ++ " WHERE " ++
        " AND ".intercalate ([("company_name", Value.str "Acme")].map
          (fun p => p.1 ++ " = ?"))
    ∧ (Database.search (Database.openConn (diskState [acmeRow, oddNameRow]))
        "invoices" []).2 = Except.ok [acmeRow, oddNameRow]
    ∧ (Database.search (Database.openConn (diskState [acmeRow, oddNameRow]))
        "invoices" [("company_name", Value.str "Acme")]).2 =
        Except.ok ([acmeRow, oddNameRow].filter
          (fun r => rowMatches r [("company_name", Value.str "Acme")])) :=
  ⟨claim_C9_search.2.1 "invoices" [("company_name", Value.str "Acme")] (by decide),
   claim_C9_search.2.2.2.1 (Database.openConn (diskState [acmeRow, oddNameRow]))
     { tableExists := true, rows := [acmeRow, oddNameRow] } (by decide) (by decide),
   claim_C9_search.2.2.2.2 (Database.openConn (diskState [acmeRow, oddNameRow]))
     { tableExists := true, rows := [acmeRow, oddNameRow] }
     [("company_name", Value.str "Acme")] (by decide) (by decide)⟩

theorem firstViolation_none_mem (tbl : List Row) (row : Row) (cols : List ColumnSpec)
    (h : firstViolation tbl row cols = none) :
    ∀ c ∈ cols,
      ¬(c.notNull = true ∧ colValue row c.name = Value.null)
      ∧ ¬(c.unique = true ∧ ∃ r ∈ tbl, colValue r c.name = colValue row c.name) := by
  induction cols with
  | nil => intro c hc; exact absurd hc (List.not_mem_nil c)
  | cons c0 rest ih =>
      unfold firstViolation at h
      split_ifs at h with h1 h2
      intro c hc
      rcases List.mem_cons.mp hc with rfl | hc
      · exact ⟨h1, h2⟩
      · exact ih h c hc

/-- C5 (amended): `init_database` issues a create-table-if-absent statement
for the invoice table that is a no-op when the table exists (and creates it
empty otherwise), and whose schema enforces that company_name is non-null and
unique and that quantity is non-null; the 5-to-100 multiple-of-5 restriction
on quantity is NOT part of the schema. -/
theorem claim_C5_schema_bootstrap :
    (∀ s : DBState, s.connection = none → s.disk.tableExists = true →
        ((init_database s).1).disk = s.disk)
    ∧ (∀ s : DBState, s.connection = none → s.disk.tableExists = false →
        ((init_database s).1).disk = { tableExists := true, rows := [] })
    ∧ (∀ (tbl : List Row) (row : Row), checkConstraints tbl row = none →
        colValue row "company_name" ≠ Value.null
        ∧ (∀ r ∈ tbl, colValue r "company_name" ≠ colValue row "company_name")
        ∧ colValue row "quantity" ≠ Value.null) := by
  refine ⟨?_, ?_, ?_⟩
  · intro s h hex
    simp [init_database, withDatabase, Database.openConn, h, DBFile.exec, hex,
      Database.close, Database.commit]
  · intro s h hex
    simp [init_database, withDatabase, Database.openConn, h, DBFile.exec, hex,
      Database.close, Database.commit]
  · intro tbl row h
    have hmem := firstViolation_none_mem tbl row invoicesColumns h
    have hname := hmem ⟨"company_name", true, true⟩ (by simp [invoicesColumns])
    have hqty := hmem ⟨"quantity", true, false⟩ (by simp [invoicesColumns])
    refine ⟨?_, ?_, ?_⟩
    · intro hnull
      exact hname.1 ⟨rfl, hnull⟩
    · intro r hr heq
      exact hname.2 ⟨rfl, r, hr, heq⟩
    · intro hnull
      exact hqty.1 ⟨rfl, hnull⟩

theorem claim_C5_witness :
    ((init_database (diskState [acmeRow])).1).disk = (diskState [acmeRow]).disk
    ∧ colValue acmeRow "company_name" ≠ Value.null
    ∧ colValue acmeRow "quantity" ≠ Value.null :=
  ⟨claim_C5_schema_bootstrap.1 (diskState [acmeRow]) (by decide) (by decide),
   (claim_C5_schema_bootstrap.2.2 [] acmeRow (by decide)).1,
   (claim_C5_schema_bootstrap.2.2 [] acmeRow (by decide)).2.2⟩

/-- C5 (counterexample): the schema does not restrict quantity to multiples
of 5 between 5 and 100 — inserting an invoice with quantity 7 through the
persistence adapter succeeds and the quantity-7 row is persisted. -/
theorem claim_C5_counterexample :
    (insert_invoice ((init_database initialState).1)
        "Acme" "07111111111" "Basic" 3 7 560 2800 3360).2 = Except.ok ()
    ∧ ((insert_invoice ((init_database initialState).1)
        "Acme" "07111111111" "Basic" 3 7 560 2800 3360).1).disk.rows.map
        (fun r => getCol r "quantity") = [some (Value.int 7)]
    ∧ ¬(5 ≤ (7 : ℤ) ∧ (7 : ℤ) ≤ 100 ∧ (7 : ℤ) % 5 = 0) :=
  ⟨by decide, by decide, by decide⟩

/-! ### Claims about the persistence adapter error path -/

/-- C1 (amended): when `insert_invoice` is called for a record whose company
name duplicates one already persisted, the uniqueness violation raised by the
underlying insert is logged at the data-access layer and re-raised; the
persistence adapter installs no handler, so the integrity error propagates to
the caller, while the previously persisted rows — including the first invoice
— remain on disk and retrievable via `read_all_invoices`. -/
theorem claim_C1_uniqueness_error_propagates (s : DBState) (cn cnum pt : String)
    (opt qty : ℤ) (vat tc tcv : ℚ)
    (hclosed : s.connection = none)
    (hex : s.disk.tableExists = true)
    (hdup : ∃ r ∈ s.disk.rows, colValue r "company_name" = Value.str cn) :
    (insert_invoice s cn cnum pt opt qty vat tc tcv).2 =
      Except.error (.integrityError "UNIQUE constraint failed: invoices.company_name")
    ∧ ((insert_invoice s cn cnum pt opt qty vat tc tcv).1).disk = s.disk
    ∧ (read_all_invoices ((insert_invoice s cn cnum pt opt qty vat tc tcv).1)).2 =
        Except.ok s.disk.rows := by
  have hdup2 : ∃ r ∈ s.disk.rows,
      (getCol r "company_name").getD Value.null = Value.str cn := by
    simpa [colValue] using hdup
  refine ⟨?_, ?_, ?_⟩ <;>
    simp [insert_invoice, withDatabase, Database.openConn, hclosed, Database.insert,
      DBFile.exec, hex, checkConstraints, firstViolation, invoicesColumns, invoiceData,
      colValue, getCol, hdup2, Database.close, Database.commit, read_all_invoices,
      Database.search, Database.query, searchStatementText, rowMatches, List.filter_true]

theorem claim_C1_witness :
    (insert_invoice (diskState [acmeRow]) "Acme" "07222222222" "Basic" 3 10
        500 2500 3000).2 =
      Except.error (.integrityError "UNIQUE constraint failed: invoices.company_name")
    ∧ ((insert_invoice (diskState [acmeRow]) "Acme" "07222222222" "Basic" 3 10
        500 2500 3000).1).disk = (diskState [acmeRow]).disk
    ∧ (read_all_invoices ((insert_invoice (diskState [acmeRow]) "Acme" "07222222222"
        "Basic" 3 10 500 2500 3000).1)).2 = Except.ok (diskState [acmeRow]).disk.rows :=
  claim_C1_uniqueness_error_propagates (diskState [acmeRow]) "Acme" "07222222222"
    "Basic" 3 10 500 2500 3000 (by decide) (by decide) (by decide)

/-- C1 (counterexample): running the customer flow twice with the same
company name makes the second run end in an UNCAUGHT integrity error — the
`except ValueError` handler does not catch it, so it is not reported as a
non-fatal domain error; the process crashes. -/
theorem claim_C1_counterexample :
    (handle_customer_core
        ((handle_customer_core ((init_database initialState).1)
            "Acme" "07111111111" "Basic" 3 10).1)
        "Acme" "07222222222" "Basic" 3 10).2 =
      FlowResult.uncaught
        (.integrityError "UNIQUE constraint failed: invoices.company_name") := by decide
